import Mathlib

/-
  Verification development for the Janus heterogeneous-multi-core scheduler
  simulator (engine/components.py, engine/scheduler.py).

  The Python code is shallowly embedded: Python floats are modelled as exact
  rationals (ℚ), Python ints as ℤ/ℕ, and the `random` module as an explicit
  stream of natural-number draws threaded through every operation.
  `random.randint(a, b)` is modelled as `a + draw % (b + 1 - a)`, which is
  faithful for `a ≤ b`: it hits exactly the values of `[a, b]` and every value
  of `[a, b]` is realised by some draw.  `random.random()` is modelled as
  `(draw % 2^53) / 2^53 ∈ [0, 1)`.
-/

namespace Janus

/-- A model of Python's `random` module: an infinite stream of natural-number
draws together with a cursor.  Each call to the generator consumes one draw. -/
structure Rng where
  stream : Nat → Nat
  idx : Nat

/-- Consume one raw draw from the generator. -/
def Rng.next (g : Rng) : Nat × Rng := (g.stream g.idx, ⟨g.stream, g.idx + 1⟩)

/-- A generator whose first draws are the given list (then 0 forever). -/
def rngOfList (l : List Nat) : Rng := ⟨fun n => l.getD n 0, 0⟩

/-- `random.randint(a, b)`: a uniform integer draw in `[a, b]` (for `a ≤ b`). -/
def randint (a b : Nat) (g : Rng) : Nat × Rng :=
  let (r, g') := g.next
  (a + r % (b + 1 - a), g')

/-- `random.random()`: a uniform draw in `[0, 1)`, modelled with 53-bit
granularity. -/
def randomFloat (g : Rng) : ℚ × Rng :=
  let (r, g') := g.next
  (((r % 2 ^ 53 : Nat) : ℚ) / (2 ^ 53 : ℚ), g')

/-- The task profile chosen at construction (`self.type` in `Task.__init__`). -/
inductive TaskType
  | cpuBound
  | ioBound
deriving DecidableEq

/-- `components.Task`: a unit of work with profile, cycle budget and
I/O-wait state. -/
structure Task where
  id : Nat
  arrival_time : Nat
  type : TaskType
  total_cycles : Nat
  io_frequency : Nat
  cycles_done : ℚ
  io_wait_timer : ℤ
deriving DecidableEq

/-- `Task.__init__(task_id, arrival_time)`: draw the profile with
`random.random() > 0.5`, then the cycle budget (and, for I/O-bound tasks,
the I/O frequency). -/
def Task.init (task_id arrival_time : Nat) (g : Rng) : Task × Rng :=
  let (r, g) := randomFloat g
  if (0.5 : ℚ) < r then
    let (tc, g) := randint 200 500 g
    ({ id := task_id, arrival_time := arrival_time, type := .cpuBound,
       total_cycles := tc, io_frequency := 0, cycles_done := 0,
       io_wait_timer := 0 }, g)
  else
    let (tc, g) := randint 50 100 g
    let (f, g) := randint 3 8 g
    ({ id := task_id, arrival_time := arrival_time, type := .ioBound,
       total_cycles := tc, io_frequency := f, cycles_done := 0,
       io_wait_timer := 0 }, g)

/-- `Task.is_finished`: `cycles_done >= total_cycles`. -/
def Task.is_finished (t : Task) : Bool :=
  decide ((t.total_cycles : ℚ) ≤ t.cycles_done)

/-- `Task.is_waiting_for_io`: `io_wait_timer > 0`. -/
def Task.is_waiting_for_io (t : Task) : Bool :=
  decide (0 < t.io_wait_timer)

/-- `Task.work(cycles_to_do)`: if waiting for I/O, decrement the wait timer
and do nothing else; otherwise add the cycles, and for I/O-bound tasks draw
`randint(1, 100)` — if the draw is strictly below `io_frequency`, set the wait
timer to `randint(5, 10)`. -/
def Task.work (t : Task) (cycles_to_do : ℚ) (g : Rng) : Task × Rng :=
  if t.is_waiting_for_io then
    ({ t with io_wait_timer := t.io_wait_timer - 1 }, g)
  else
    let t' := { t with cycles_done := t.cycles_done + cycles_to_do }
    if t'.type = TaskType.ioBound then
      let (d, g') := randint 1 100 g
      if d < t'.io_frequency then
        let (w, g'') := randint 5 10 g'
        ({ t' with io_wait_timer := (w : ℤ) }, g'')
      else (t', g')
    else (t', g)

/-- The core variant (`core_type` in `CPUCore.__init__`). -/
inductive CoreType
  | pCore
  | eCore
deriving DecidableEq

/-- `components.CPUCore`: a core with performance, power and thermal state. -/
structure CPUCore where
  id : ℤ
  type : CoreType
  current_task : Option Task
  base_speed : ℚ
  power_draw : ℚ
  heat_generation : ℚ
  idle_power_draw : ℚ
  temperature : ℚ
  max_temp : ℚ
  cooling_factor : ℚ
deriving DecidableEq

/-- `CPUCore.__init__(core_id, core_type)`. -/
def CPUCore.init (core_id : ℤ) (core_type : CoreType) : CPUCore :=
  if core_type = CoreType.pCore then
    { id := core_id, type := core_type, current_task := none,
      base_speed := 2.0, power_draw := 4.0, heat_generation := 0.8,
      idle_power_draw := 0.1, temperature := 25.0, max_temp := 90.0,
      cooling_factor := 0.4 }
  else
    { id := core_id, type := core_type, current_task := none,
      base_speed := 1.0, power_draw := 1.0, heat_generation := 0.2,
      idle_power_draw := 0.1, temperature := 25.0, max_temp := 90.0,
      cooling_factor := 0.4 }

/-- `CPUCore.get_current_speed`: base speed, halved when
`temperature >= max_temp`. -/
def CPUCore.get_current_speed (c : CPUCore) : ℚ :=
  if c.max_temp ≤ c.temperature then c.base_speed * 0.5 else c.base_speed

/-- `CPUCore.get_current_power_draw`: active power draw when a task is bound
and not waiting for I/O, else idle power draw. -/
def CPUCore.get_current_power_draw (c : CPUCore) : ℚ :=
  let is_active :=
    match c.current_task with
    | some t => !t.is_waiting_for_io
    | none => false
  if is_active then c.power_draw else c.idle_power_draw

/-- `CPUCore.update_temperature`: heat when actively computing, cool
otherwise, clamped below by the 25.0 ambient floor. -/
def CPUCore.update_temperature (c : CPUCore) : CPUCore :=
  let is_active_computing :=
    match c.current_task with
    | some t => !t.is_waiting_for_io
    | none => false
  let temp :=
    if is_active_computing then c.temperature + c.heat_generation
    else c.temperature - c.cooling_factor
  { c with temperature := max 25.0 temp }

/-- `CPUCore.assign_task(task)`. -/
def CPUCore.assign_task (c : CPUCore) (t : Task) : CPUCore :=
  { c with current_task := some t }

/-- `CPUCore.tick`: update temperature; then, if a task is bound: release it
when finished, idle through its I/O wait, or apply `work` at the current
effective speed. -/
def CPUCore.tick (c : CPUCore) (g : Rng) : CPUCore × Rng :=
  let c' := c.update_temperature
  match c'.current_task with
  | none => (c', g)
  | some t =>
    if t.is_finished then ({ c' with current_task := none }, g)
    else if t.is_waiting_for_io then (c', g)
    else
      let speed := c'.get_current_speed
      let (t', g') := t.work speed g
      ({ c' with current_task := some t' }, g')

/-- `scheduler.SoC`: the simulator state.  (The Python object also keeps
`p_cores`/`e_cores` lists, but those alias the elements of `all_cores` and are
only read at construction and for printing; all mutation goes through
`all_cores`, so only `all_cores` is carried here.  The construction-time split
is captured by `initPCores`/`initECores` below.) -/
structure SoC where
  all_cores : List CPUCore
  master_task_list : List Task
  task_queue : List Task
  completed_tasks : List Task
  current_tick : Nat
  total_power_consumed : ℚ
deriving DecidableEq

/-- The P-core list built in `SoC.__init__`:
`[CPUCore(core_id=i, core_type="P-core") for i in range(num_p_cores)]`
(a Python `range` over a non-positive bound is empty). -/
def initPCores (num_p_cores : ℤ) : List CPUCore :=
  (List.range num_p_cores.toNat).map fun i => CPUCore.init (i : ℤ) .pCore

/-- The E-core list built in `SoC.__init__`:
`[CPUCore(core_id=i + num_p_cores, core_type="E-core") for i in range(num_e_cores)]`. -/
def initECores (num_p_cores num_e_cores : ℤ) : List CPUCore :=
  (List.range num_e_cores.toNat).map fun i =>
    CPUCore.init ((i : ℤ) + num_p_cores) .eCore

/-- The body of the `for i in range(num_tasks)` loop of `SoC.generate_tasks`:
draw a staggered arrival time, then construct the task.  (The `randint` upper
bound `num_tasks * 5` is only evaluated when the loop runs, i.e. when
`num_tasks ≥ 1`, so taking `toNat` of it is faithful.) -/
def genTasksLoop (num_tasks : ℤ) : List Nat → Rng → List Task × Rng
  | [], g => ([], g)
  | i :: rest, g =>
    let (a, g') := randint 0 (num_tasks * 5).toNat g
    let (t, g'') := Task.init i a g'
    let (ts, g''') := genTasksLoop num_tasks rest g''
    (t :: ts, g''')

/-- Stable insertion of a task into a list sorted by ascending arrival time
(the inserted task goes before later-listed tasks with an equal key, like
Python's stable `list.sort`). -/
def insertByArrival (x : Task) : List Task → List Task
  | [] => [x]
  | y :: ys =>
    if x.arrival_time ≤ y.arrival_time then x :: y :: ys
    else y :: insertByArrival x ys

/-- Stable sort by ascending arrival time
(`tasks.sort(key=lambda x: x.arrival_time)`). -/
def sortByArrival : List Task → List Task
  | [] => []
  | x :: xs => insertByArrival x (sortByArrival xs)

/-- `SoC.generate_tasks(num_tasks)`. -/
def SoC.generate_tasks (num_tasks : ℤ) (g : Rng) : List Task × Rng :=
  let (ts, g') := genTasksLoop num_tasks (List.range num_tasks.toNat) g
  (sortByArrival ts, g')

/-- `SoC.__init__(num_p_cores, num_e_cores, num_tasks)`. -/
def SoC.init (num_p_cores num_e_cores num_tasks : ℤ) (g : Rng) : SoC × Rng :=
  let (tasks, g') := SoC.generate_tasks num_tasks g
  ({ all_cores := initPCores num_p_cores ++ initECores num_p_cores num_e_cores,
     master_task_list := tasks, task_queue := [], completed_tasks := [],
     current_tick := 0, total_power_consumed := 0 }, g')

/-- The `while` loop of `SoC.check_for_new_arrivals`: pop tasks off the front
of the master list while their arrival time is at or before the current tick,
appending them to the ready queue. -/
def arrivalsLoop : List Task → List Task → Nat → List Task × List Task
  | [], q, _ => ([], q)
  | t :: rest, q, tick =>
    if t.arrival_time ≤ tick then arrivalsLoop rest (q ++ [t]) tick
    else (t :: rest, q)

/-- `SoC.check_for_new_arrivals`. -/
def SoC.check_for_new_arrivals (s : SoC) : SoC :=
  let (m, q) := arrivalsLoop s.master_task_list s.task_queue s.current_tick
  { s with master_task_list := m, task_queue := q }

/-- Rule 1 of the scheduler: scan the ready queue front-to-back for the first
task matching the core type's affinity (P-cores prefer CPU-bound, E-cores
prefer I/O-bound). -/
def affinityPick (ct : CoreType) (q : List Task) : Option Task :=
  match ct with
  | .pCore => q.find? fun t => t.type == TaskType.cpuBound
  | .eCore => q.find? fun t => t.type == TaskType.ioBound

/-- Rules 1 and 2 combined: the affinity pick, falling back to the queue's
front task when no affinity match exists. -/
def pickTask (ct : CoreType) (q : List Task) : Option Task :=
  match affinityPick ct q with
  | some t => some t
  | none => q.head?

/-- The body of the `for core in self.all_cores` loop of
`SoC.schedule_rule_based`: reclaim the core if its bound task is finished,
then, if the core is idle and the queue non-empty, pick a task, remove it from
the queue and bind it. -/
def scheduleCore (core : CPUCore) (q comp : List Task) :
    CPUCore × List Task × List Task :=
  let (core', comp') :=
    match core.current_task with
    | some t =>
      if t.is_finished then ({ core with current_task := none }, comp ++ [t])
      else (core, comp)
    | none => (core, comp)
  if core'.current_task.isNone && !q.isEmpty then
    match pickTask core'.type q with
    | some t => (core'.assign_task t, q.erase t, comp')
    | none => (core', q, comp')
  else (core', q, comp')

/-- The `for core in self.all_cores` loop of `SoC.schedule_rule_based`,
threading the ready queue and the completed record through the cores in list
order. -/
def scheduleLoop : List CPUCore → List Task → List Task →
    List CPUCore × List Task × List Task
  | [], q, comp => ([], q, comp)
  | c :: cs, q, comp =>
    let (c', q', comp') := scheduleCore c q comp
    let (cs', q'', comp'') := scheduleLoop cs q' comp'
    (c' :: cs', q'', comp'')

/-- `SoC.schedule_rule_based`: return immediately when the ready queue is
empty, else run the per-core reclaim/assign loop. -/
def SoC.schedule_rule_based (s : SoC) : SoC :=
  if s.task_queue.isEmpty then s
  else
    let (cores, q, comp) := scheduleLoop s.all_cores s.task_queue s.completed_tasks
    { s with all_cores := cores, task_queue := q, completed_tasks := comp }

/-- Phase 3 of `SoC.run_simulation_tick`: tick every core in order and
accumulate each core's power draw, sampled after that core's tick. -/
def tickCoresLoop : List CPUCore → Rng → List CPUCore × ℚ × Rng
  | [], g => ([], 0, g)
  | c :: cs, g =>
    let (c', g') := c.tick g
    let (cs', p, g'') := tickCoresLoop cs g'
    (c' :: cs', c'.get_current_power_draw + p, g'')

/-- `SoC.run_simulation_tick`: arrivals, scheduling, per-core execution with
power accounting, then advance the tick counter. -/
def SoC.run_simulation_tick (s : SoC) (g : Rng) : SoC × Rng :=
  let s1 := s.check_for_new_arrivals
  let s2 := s1.schedule_rule_based
  let (cores, p, g') := tickCoresLoop s2.all_cores g
  ({ s2 with all_cores := cores,
             total_power_consumed := s2.total_power_consumed + p,
             current_tick := s2.current_tick + 1 }, g')

/-- Iterate `run_simulation_tick`. -/
def runTicks : SoC → Rng → Nat → SoC × Rng
  | s, g, 0 => (s, g)
  | s, g, n + 1 =>
    match s.run_simulation_tick g with
    | (s', g') => runTicks s' g' n

/-- Iterate `CPUCore.tick`. -/
def coreTickN : CPUCore → Rng → Nat → CPUCore × Rng
  | c, g, 0 => (c, g)
  | c, g, n + 1 =>
    match c.tick g with
    | (c', g') => coreTickN c' g' n

/-- Unfolding lemma for `runTicks` at a successor. -/
theorem runTicks_succ (s : SoC) (g : Rng) (n : Nat) :
    runTicks s g (n + 1) =
      runTicks (s.run_simulation_tick g).1 (s.run_simulation_tick g).2 n := by
  rcases h : s.run_simulation_tick g with ⟨s', g'⟩
  simp [runTicks, h]

/-- Unfolding lemma for `coreTickN` at a successor. -/
theorem coreTickN_succ (c : CPUCore) (g : Rng) (n : Nat) :
    coreTickN c g (n + 1) = coreTickN (c.tick g).1 (c.tick g).2 n := by
  rcases h : c.tick g with ⟨c', g'⟩
  simp [coreTickN, h]

/-- Number of tasks currently bound to a core. -/
def boundTaskCount (s : SoC) : Nat :=
  (s.all_cores.filter fun c => c.current_task.isSome).length

/-- Total number of tasks held across the four containers: not-yet-arrived,
ready queue, bound to a core, completed. -/
def containerCount (s : SoC) : Nat :=
  s.master_task_list.length + s.task_queue.length + boundTaskCount s +
    s.completed_tasks.length

/-- Out of the 100 equally likely draws of `randint(1, 100)`, the number that
make a `work 1` step on `t` leave the task waiting for I/O (i.e. fire an I/O
event). -/
def ioFireCount (t : Task) : Nat :=
  ((Finset.range 100).filter fun r =>
    ((t.work 1 (rngOfList [r, 0])).1).is_waiting_for_io = true).card

/-! Concrete inputs used by the claim theorems below. -/

/-- A random stream forcing `SoC.init 0 1 1` to generate a single I/O-bound
task with `arrival_time = 0`, `total_cycles = 50`, `io_frequency = 3`, and
forcing every subsequent `randint(1, 100)` draw to 100 (so no I/O event ever
fires). -/
def gC1 : Rng := ⟨fun n => if n < 4 then 0 else 99, 0⟩

/-- A finished I/O-bound task (`cycles_done = total_cycles = 50`). -/
def taskC2 : Task :=
  { id := 0, arrival_time := 0, type := .ioBound, total_cycles := 50,
    io_frequency := 3, cycles_done := 50, io_wait_timer := 0 }

/-- A simulator state with one E-core bound to a finished task and an empty
ready queue (the state reached right after the bound task finishes its last
cycles, once all other tasks have left the queue). -/
def socC2 : SoC :=
  { all_cores := [{ CPUCore.init 0 .eCore with current_task := some taskC2 }],
    master_task_list := [], task_queue := [], completed_tasks := [],
    current_tick := 50, total_power_consumed := 0 }

/-- A CPU-bound task one work step away from its odd cycle budget: a P-core at
full speed 2.0 overshoots `total_cycles = 201`. -/
def taskC3 : Task :=
  { id := 0, arrival_time := 0, type := .cpuBound, total_cycles := 201,
    io_frequency := 0, cycles_done := 200, io_wait_timer := 0 }

/-- C1.  The claimed conservation invariant fails on the code: with one E-core
and one task (I/O-bound, arrival 0, 50 cycles, no I/O events), the task is
generated (count 1), but after 51 simulation ticks it is in none of the four
containers (count 0).  The task finishes during tick 49; at tick 50 the ready
queue is empty, so `schedule_rule_based` returns before its reclaim step, and
`CPUCore.tick` then clears the binding without recording the task anywhere. -/
theorem task_lost_after_finish :
    containerCount (SoC.init 0 1 1 gC1).1 = 1 ∧
    containerCount (runTicks (SoC.init 0 1 1 gC1).1 (SoC.init 0 1 1 gC1).2 51).1 = 0 := by
  with_unfolding_all decide

/-- C2.  The reclaim step is not unconditional: on a state whose only core is
bound to a finished task but whose ready queue is empty,
`schedule_rule_based` is the identity — the finished task is neither moved to
the completed record nor unbound, because the function returns at its
empty-queue guard before the per-core loop runs. -/
theorem reclaim_skipped_on_empty_queue :
    taskC2.is_finished = true ∧ socC2.task_queue = [] ∧
    socC2.completed_tasks = [] ∧ socC2.schedule_rule_based = socC2 := by
  with_unfolding_all decide

/-- C3 counterexample.  `work` adds the full amount without clamping: on a
task with `total_cycles = 201` and `cycles_done = 200`, one `work 2` step
(a P-core at full speed) pushes `cycles_done` to 202 > 201. -/
theorem work_overshoots_total :
    (taskC3.total_cycles : ℚ) < ((taskC3.work 2 (rngOfList [])).1).cycles_done := by
  with_unfolding_all decide

/-- C3 (amended).  Across work calls with non-negative amounts — the only
amounts the cores produce — `cycles_done` is monotonically non-decreasing;
the `total_cycles` bound, however, does not hold (see the counterexample). -/
theorem work_monotone (t : Task) (c : ℚ) (g : Rng) (h : 0 ≤ c) :
    t.cycles_done ≤ ((t.work c g).1).cycles_done := by
  unfold Task.work
  by_cases hw : t.is_waiting_for_io = true
  · simp [hw]
  · simp only [Bool.not_eq_true] at hw
    simp only [hw, Bool.false_eq_true, if_false]
    split
    · split
      · exact le_add_of_nonneg_right h
      · exact le_add_of_nonneg_right h
    · exact le_add_of_nonneg_right h

/-- Witness for C3's amended theorem at a concrete input. -/
theorem work_monotone_witness :
    (0 : ℚ) ≤ 2 ∧ taskC3.cycles_done ≤ ((taskC3.work 2 (rngOfList [])).1).cycles_done :=
  ⟨by norm_num, work_monotone taskC3 2 (rngOfList []) (by norm_num)⟩

/-- C7.  On any core with the constructed throttle threshold 90.0,
`get_current_speed` returns the base speed strictly below the threshold and
exactly half the base speed at or above it. -/
theorem throttled_speed_halves (c : CPUCore) (hmax : c.max_temp = 90) :
    (c.temperature < 90 → c.get_current_speed = c.base_speed) ∧
    (90 ≤ c.temperature → c.get_current_speed = c.base_speed / 2) := by
  unfold CPUCore.get_current_speed
  rw [hmax]
  constructor
  · intro h
    rw [if_neg (not_le.mpr h)]
  · intro h
    rw [if_pos h]
    ring

/-- Witness for C7 at a concrete input: a P-core heated to 95.0 runs at
1.0 = 2.0 / 2, and at 30.0 it runs at the full 2.0. -/
theorem throttled_speed_halves_witness :
    ({ CPUCore.init 0 .pCore with temperature := 95 } : CPUCore).max_temp = 90 ∧
    ({ CPUCore.init 0 .pCore with temperature := 95 } : CPUCore).get_current_speed =
      ({ CPUCore.init 0 .pCore with temperature := 95 } : CPUCore).base_speed / 2 ∧
    ({ CPUCore.init 0 .pCore with temperature := 30 } : CPUCore).get_current_speed =
      ({ CPUCore.init 0 .pCore with temperature := 30 } : CPUCore).base_speed :=
  ⟨by with_unfolding_all decide,
   (throttled_speed_halves _ (by with_unfolding_all decide)).2
     (by with_unfolding_all decide),
   (throttled_speed_halves _ (by with_unfolding_all decide)).1
     (by with_unfolding_all decide)⟩

/-- The expression `update_temperature` stores into the temperature field. -/
theorem update_temperature_temp (c : CPUCore) :
    c.update_temperature.temperature =
      max 25.0 (if (match c.current_task with
                    | some t => !t.is_waiting_for_io
                    | none => false) = true
                then c.temperature + c.heat_generation
                else c.temperature - c.cooling_factor) := rfl

/-- The clamp in `update_temperature` keeps the temperature at or above the
25.0 ambient floor. -/
theorem update_temperature_floor (c : CPUCore) :
    (25.0 : ℚ) ≤ c.update_temperature.temperature := by
  rw [update_temperature_temp]
  exact le_max_left _ _

/-- Every branch of `CPUCore.tick` leaves the temperature as
`update_temperature` set it, so it is at or above 25.0. -/
theorem tick_temperature_floor (c : CPUCore) (g : Rng) :
    (25.0 : ℚ) ≤ ((c.tick g).1).temperature := by
  simp only [CPUCore.tick]
  split
  · exact update_temperature_floor _
  · split
    · exact update_temperature_floor _
    · split
      · exact update_temperature_floor _
      · exact update_temperature_floor _

/-- C8.  Cores start at temperature 25.0; `update_temperature` heats by the
heat-generation rate exactly when a bound, non-I/O-waiting task is present and
otherwise cools by the cooling rate, clamping the result at the 25.0 floor;
hence after any positive number of ticks, from any state, the temperature is
at least 25.0. -/
theorem temperature_never_below_ambient :
    (∀ (i : ℤ) (ct : CoreType), (CPUCore.init i ct).temperature = 25.0) ∧
    (∀ c : CPUCore, c.update_temperature.temperature =
        max 25.0 (if (match c.current_task with
                      | some t => !t.is_waiting_for_io
                      | none => false) = true
                  then c.temperature + c.heat_generation
                  else c.temperature - c.cooling_factor)) ∧
    (∀ c : CPUCore, (25.0 : ℚ) ≤ c.update_temperature.temperature) ∧
    (∀ (c : CPUCore) (g : Rng) (n : Nat),
      (25.0 : ℚ) ≤ ((coreTickN c g (n + 1)).1).temperature) := by
  refine ⟨?_, update_temperature_temp, update_temperature_floor, ?_⟩
  · intro i ct
    cases ct <;> rfl
  · intro c g n
    induction n generalizing c g with
    | zero => exact tick_temperature_floor c g
    | succ n ih => exact ih (c.tick g).1 (c.tick g).2

/-- A simulator with no cores and no tasks at all. -/
def socC4 : SoC :=
  { all_cores := [], master_task_list := [], task_queue := [],
    completed_tasks := [], current_tick := 0, total_power_consumed := 0 }

/-- C4 counterexample.  With zero tasks but one (idle) core, a single
simulation tick already changes state beyond the tick counter: the core
contributes its idle power draw, so `total_power_consumed` moves from 0 to
0.1. -/
theorem zero_tasks_power_accrues :
    (SoC.init 0 1 0 (rngOfList [])).1.master_task_list = [] ∧
    (SoC.init 0 1 0 (rngOfList [])).1.total_power_consumed = 0 ∧
    (runTicks (SoC.init 0 1 0 (rngOfList [])).1
        (SoC.init 0 1 0 (rngOfList [])).2 1).1.total_power_consumed ≠ 0 := by
  with_unfolding_all decide

/-- One simulation tick on a simulator with no cores, no pending tasks and an
empty ready queue only advances the tick counter. -/
theorem run_tick_on_empty (s : SoC) (g : Rng)
    (hc : s.all_cores = []) (hm : s.master_task_list = [])
    (hq : s.task_queue = []) :
    s.run_simulation_tick g = ({ s with current_tick := s.current_tick + 1 }, g) := by
  obtain ⟨cores, m, q, comp, tick, pow⟩ := s
  simp only at hc hm hq
  subst hc; subst hm; subst hq
  simp [SoC.run_simulation_tick, SoC.check_for_new_arrivals, arrivalsLoop,
    SoC.schedule_rule_based, tickCoresLoop]

/-- C4 (amended).  With zero cores and zero tasks (no cores, empty master
list, empty ready queue), `run_simulation_tick` can be iterated any number of
times without fault; the only state change is the tick counter advancing by 1
per call — the random source, power total, and all task containers are
untouched.  (With cores but no tasks, idle power still accrues — see the
counterexample; with tasks but no cores, arrivals still move into the ready
queue.) -/
theorem tick_noop_when_empty (s : SoC) (g : Rng) (n : Nat)
    (hc : s.all_cores = []) (hm : s.master_task_list = [])
    (hq : s.task_queue = []) :
    runTicks s g n = ({ s with current_tick := s.current_tick + n }, g) := by
  induction n generalizing s g with
  | zero =>
    obtain ⟨cores, m, q, comp, tick, pow⟩ := s
    simp [runTicks]
  | succ n ih =>
    rw [runTicks_succ, run_tick_on_empty s g hc hm hq]
    dsimp only
    rw [ih { s with current_tick := s.current_tick + 1 } g (by simp [hc])
        (by simp [hm]) (by simp [hq])]
    obtain ⟨cores, m, q, comp, tick, pow⟩ := s
    simp only [SoC.mk.injEq, Prod.mk.injEq]
    exact ⟨⟨trivial, trivial, trivial, trivial, by omega, trivial⟩, trivial⟩

/-- Witness for C4's amended theorem at a concrete input. -/
theorem tick_noop_when_empty_witness :
    socC4.all_cores = [] ∧ socC4.master_task_list = [] ∧ socC4.task_queue = [] ∧
    runTicks socC4 (rngOfList []) 3 =
      ({ socC4 with current_tick := socC4.current_tick + 3 }, rngOfList []) :=
  ⟨rfl, rfl, rfl, tick_noop_when_empty socC4 (rngOfList []) 3 rfl rfl rfl⟩

/-- A `work` step on a task that is not I/O-waiting always adds the full
amount to `cycles_done`, in every branch. -/
theorem work_cycles_nonwaiting (t : Task) (c : ℚ) (g : Rng)
    (hw : t.is_waiting_for_io = false) :
    ((t.work c g).1).cycles_done = t.cycles_done + c := by
  unfold Task.work
  simp only [hw, Bool.false_eq_true, if_false]
  split
  · split
    · rfl
    · rfl
  · rfl

/-- Evaluation of a non-waiting `work` step on an I/O-bound task against the
explicit two-draw stream `[r, w]` (first draw `randint(1,100)`, second —
taken only when the event fires — `randint(5,10)`). -/
theorem work_io_case (t : Task) (c : ℚ) (r w : Nat)
    (hty : t.type = TaskType.ioBound) (hw : t.io_wait_timer = 0)
    (hr : r < 100) :
    (t.work c (rngOfList [r, w])).1 =
      if 1 + r < t.io_frequency then
        { t with cycles_done := t.cycles_done + c,
                 io_wait_timer := ((5 + w % 6 : Nat) : ℤ) }
      else { t with cycles_done := t.cycles_done + c } := by
  have hwait : t.is_waiting_for_io = false := by
    simp [Task.is_waiting_for_io, hw]
  unfold Task.work
  simp only [hwait, Bool.false_eq_true, if_false, hty]
  simp only [randint, Rng.next, rngOfList, Nat.mod_eq_of_lt hr]
  simp [List.getD, Nat.mod_eq_of_lt hr]
  split <;> rfl

/-- Against the stream `[r, 0]` with `r < 100`, a non-waiting `work` step on
an I/O-bound task leaves the task I/O-waiting exactly when the
`randint(1,100)` draw `1 + r` is strictly below `io_frequency`. -/
theorem io_fire_iff (t : Task) (c : ℚ)
    (hty : t.type = TaskType.ioBound) (hw : t.io_wait_timer = 0)
    (r : Nat) (hr : r < 100) :
    ((t.work c (rngOfList [r, 0])).1).is_waiting_for_io = true ↔
      1 + r < t.io_frequency := by
  rw [work_io_case t c r 0 hty hw hr]
  by_cases hd : 1 + r < t.io_frequency
  · simp [hd, Task.is_waiting_for_io]
  · simp [hd, Task.is_waiting_for_io, hw]

/-- C5 (amended).  An I/O-bound task with `io_frequency = f ∈ [1, 100]` and a
zero wait timer: `work` adds the compute amount first in every case; against the
stream `[r, w]` with `r < 100` (so the `randint(1,100)` draw is `1 + r`), the
I/O event fires exactly when `1 + r < f`, in which case the timer is set to
`5 + w % 6 ∈ [5, 10]`; out of the 100 equally likely first draws, exactly
`f - 1` fire — the event probability is `(f-1)/100`, not `f/100`. -/
theorem io_event_mechanics (t : Task) (c : ℚ)
    (hty : t.type = TaskType.ioBound) (hw : t.io_wait_timer = 0)
    (h1 : 1 ≤ t.io_frequency) (h100 : t.io_frequency ≤ 100) :
    (∀ g : Rng, ((t.work c g).1).cycles_done = t.cycles_done + c) ∧
    (∀ r : Nat, r < 100 →
      (((t.work c (rngOfList [r, 0])).1).is_waiting_for_io = true ↔
        1 + r < t.io_frequency)) ∧
    (∀ r w : Nat, r < 100 → 1 + r < t.io_frequency →
      ((t.work c (rngOfList [r, w])).1).io_wait_timer = ((5 + w % 6 : Nat) : ℤ) ∧
      (5 : ℤ) ≤ ((t.work c (rngOfList [r, w])).1).io_wait_timer ∧
      ((t.work c (rngOfList [r, w])).1).io_wait_timer ≤ 10) ∧
    ioFireCount t = t.io_frequency - 1 := by
  have hwait : t.is_waiting_for_io = false := by
    simp [Task.is_waiting_for_io, hw]
  refine ⟨fun g => work_cycles_nonwaiting t c g hwait,
    fun r hr => io_fire_iff t c hty hw r hr, ?_, ?_⟩
  · intro r w hr hd
    rw [work_io_case t c r w hty hw hr, if_pos hd]
    refine ⟨rfl, ?_, ?_⟩
    · dsimp only
      have h5 : 5 ≤ 5 + w % 6 := Nat.le_add_right 5 (w % 6)
      exact_mod_cast h5
    · dsimp only
      have h6 : w % 6 < 6 := Nat.mod_lt w (by norm_num)
      have h10 : 5 + w % 6 ≤ 10 := by omega
      exact_mod_cast h10
  · unfold ioFireCount
    rw [Finset.filter_congr (fun r hr =>
      io_fire_iff t 1 hty hw r (Finset.mem_range.mp hr))]
    have hset : (Finset.range 100).filter (fun r => 1 + r < t.io_frequency) =
        Finset.range (t.io_frequency - 1) := by
      ext x
      simp only [Finset.mem_filter, Finset.mem_range]
      omega
    rw [hset, Finset.card_range]

/-- An I/O-bound task with `io_frequency = 3` (the smallest value `Task.init`
draws), not waiting and unfinished. -/
def taskC5 : Task :=
  { id := 0, arrival_time := 0, type := .ioBound, total_cycles := 60,
    io_frequency := 3, cycles_done := 0, io_wait_timer := 0 }

/-- C5 counterexample.  On an I/O-bound task with `io_frequency = 3`, only 2
of the 100 equally likely `randint(1,100)` draws (namely 1 and 2) are
strictly below 3, so the I/O event fires with probability 2%, not the claimed
`io_frequency`% = 3%. -/
theorem io_probability_off_by_one :
    taskC5.type = TaskType.ioBound ∧ taskC5.io_frequency = 3 ∧
    ioFireCount taskC5 = 2 ∧ ioFireCount taskC5 ≠ taskC5.io_frequency := by
  with_unfolding_all decide

/-- An I/O-bound task with `io_frequency = 8` (the largest value `Task.init`
draws), used as the concrete witness input. -/
def taskC5w : Task :=
  { id := 1, arrival_time := 0, type := .ioBound, total_cycles := 80,
    io_frequency := 8, cycles_done := 0, io_wait_timer := 0 }

/-- Witness for C5's amended theorem at a concrete input: with
`io_frequency = 8`, exactly 7 of the 100 draws fire the I/O event. -/
theorem io_event_mechanics_witness :
    taskC5w.type = TaskType.ioBound ∧ taskC5w.io_wait_timer = 0 ∧
    1 ≤ taskC5w.io_frequency ∧ taskC5w.io_frequency ≤ 100 ∧
    ioFireCount taskC5w = taskC5w.io_frequency - 1 :=
  ⟨rfl, rfl, by norm_num [taskC5w], by norm_num [taskC5w],
   (io_event_mechanics taskC5w 1 rfl rfl (by norm_num [taskC5w])
     (by norm_num [taskC5w])).2.2.2⟩

/-- C6.  The assignment policy: (1) an idle P-core facing a queue whose
front-to-back scan finds a CPU-bound task binds exactly that task — which is
CPU-bound, never I/O-bound; (2) the constructed core list is the P-cores
followed by the E-cores, so P-cores are considered first; (3) an idle core
with no affinity match in a non-empty queue is assigned the queue's front
task. -/
theorem scheduler_affinity_rules :
    (∀ (c : CPUCore) (q comp : List Task) (t : Task),
      c.current_task = none → c.type = CoreType.pCore →
      q.find? (fun x => x.type == TaskType.cpuBound) = some t →
      (scheduleCore c q comp).1.current_task = some t ∧
        t.type = TaskType.cpuBound) ∧
    (∀ (np ne nt : ℤ) (g : Rng),
      ((SoC.init np ne nt g).1).all_cores = initPCores np ++ initECores np ne ∧
      (∀ c ∈ initPCores np, c.type = CoreType.pCore) ∧
      (∀ c ∈ initECores np ne, c.type = CoreType.eCore)) ∧
    (∀ (c : CPUCore) (q comp : List Task),
      c.current_task = none → q ≠ [] → affinityPick c.type q = none →
      (scheduleCore c q comp).1.current_task = q.head?) := by
  refine ⟨?_, ?_, ?_⟩
  · intro c q comp t hnone hty hfind
    rcases q with _ | ⟨a, as⟩
    · simp at hfind
    · constructor
      · simp [scheduleCore, hnone, pickTask, affinityPick, hty, hfind,
          CPUCore.assign_task]
      · have hp := List.find?_some hfind
        simpa using hp
  · intro np ne nt g
    rcases h : SoC.generate_tasks nt g with ⟨ts, g'⟩
    refine ⟨by simp [SoC.init, h], ?_, ?_⟩
    · intro c hc
      simp only [initPCores, List.mem_map] at hc
      obtain ⟨i, _, rfl⟩ := hc
      rfl
    · intro c hc
      simp only [initECores, List.mem_map] at hc
      obtain ⟨i, _, rfl⟩ := hc
      rfl
  · intro c q comp hnone hq hpick
    rcases q with _ | ⟨a, as⟩
    · exact absurd rfl hq
    · simp [scheduleCore, hnone, pickTask, hpick, CPUCore.assign_task]

/-- A CPU-bound task used in the C6 witness queue. -/
def taskCpuW : Task :=
  { id := 2, arrival_time := 0, type := .cpuBound, total_cycles := 300,
    io_frequency := 0, cycles_done := 0, io_wait_timer := 0 }

/-- An I/O-bound task used in the C6 witness queue. -/
def taskIoW : Task :=
  { id := 3, arrival_time := 0, type := .ioBound, total_cycles := 70,
    io_frequency := 5, cycles_done := 0, io_wait_timer := 0 }

/-- Witness for C6 at concrete inputs: an idle P-core facing the queue
`[I/O-bound, CPU-bound]` binds the CPU-bound task (skipping the I/O-bound
front); an idle E-core facing the all-CPU-bound queue `[CPU-bound]` has no
affinity match and takes the front task. -/
theorem scheduler_affinity_rules_witness :
    (CPUCore.init 0 .pCore).current_task = none ∧
    (CPUCore.init 0 .pCore).type = CoreType.pCore ∧
    [taskIoW, taskCpuW].find? (fun x => x.type == TaskType.cpuBound) =
      some taskCpuW ∧
    (scheduleCore (CPUCore.init 0 .pCore) [taskIoW, taskCpuW] []).1.current_task =
      some taskCpuW ∧
    taskCpuW.type = TaskType.cpuBound ∧
    (CPUCore.init 1 .eCore).current_task = none ∧
    affinityPick (CPUCore.init 1 .eCore).type [taskCpuW] = none ∧
    (scheduleCore (CPUCore.init 1 .eCore) [taskCpuW] []).1.current_task =
      [taskCpuW].head? :=
  ⟨by with_unfolding_all decide, by with_unfolding_all decide,
   by with_unfolding_all decide,
   (scheduler_affinity_rules.1 (CPUCore.init 0 .pCore) [taskIoW, taskCpuW] []
     taskCpuW (by with_unfolding_all decide) (by with_unfolding_all decide)
     (by with_unfolding_all decide)).1,
   (scheduler_affinity_rules.1 (CPUCore.init 0 .pCore) [taskIoW, taskCpuW] []
     taskCpuW (by with_unfolding_all decide) (by with_unfolding_all decide)
     (by with_unfolding_all decide)).2,
   by with_unfolding_all decide, by with_unfolding_all decide,
   scheduler_affinity_rules.2.2 (CPUCore.init 1 .eCore) [taskCpuW] []
     (by with_unfolding_all decide) (by simp) (by with_unfolding_all decide)⟩

/-- C9 counterexample.  Construction with all three counts negative does not
fail: it returns a perfectly ordinary simulator value — empty core list, no
tasks, tick 0 — because Python `range` over a negative bound is simply empty
and `SoC.__init__` contains no validation or raise path. -/
theorem negative_counts_still_construct :
    (SoC.init (-1) (-1) (-1) (rngOfList [])).1 =
      { all_cores := [], master_task_list := [], task_queue := [],
        completed_tasks := [], current_tick := 0, total_power_consumed := 0 } := by
  with_unfolding_all decide

/-- C9 (amended).  Construction performs no validation of the counts: any
non-positive core or task count just produces empty core/task lists (the
`range` comprehensions are empty), no error is raised, and the random source
is not even consumed. -/
theorem init_unchecked_counts (np ne nt : ℤ) (g : Rng)
    (hp : np ≤ 0) (he : ne ≤ 0) (ht : nt ≤ 0) :
    ((SoC.init np ne nt g).1).all_cores = [] ∧
    ((SoC.init np ne nt g).1).master_task_list = [] ∧
    (SoC.init np ne nt g).2 = g := by
  have hp' : np.toNat = 0 := Int.toNat_of_nonpos hp
  have he' : ne.toNat = 0 := Int.toNat_of_nonpos he
  have ht' : nt.toNat = 0 := Int.toNat_of_nonpos ht
  have hgen : SoC.generate_tasks nt g = ([], g) := by
    simp [SoC.generate_tasks, ht', genTasksLoop, sortByArrival]
  refine ⟨?_, ?_, ?_⟩ <;>
    simp [SoC.init, hgen, initPCores, initECores, hp', he']

/-- Witness for C9's amended theorem at a concrete input. -/
theorem init_unchecked_counts_witness :
    (-1 : ℤ) ≤ 0 ∧
    ((SoC.init (-1) (-1) (-1) (rngOfList [42])).1).all_cores = [] ∧
    ((SoC.init (-1) (-1) (-1) (rngOfList [42])).1).master_task_list = [] ∧
    (SoC.init (-1) (-1) (-1) (rngOfList [42])).2 = rngOfList [42] :=
  ⟨by norm_num,
   (init_unchecked_counts (-1) (-1) (-1) (rngOfList [42]) (by norm_num)
     (by norm_num) (by norm_num)).1,
   (init_unchecked_counts (-1) (-1) (-1) (rngOfList [42]) (by norm_num)
     (by norm_num) (by norm_num)).2.1,
   (init_unchecked_counts (-1) (-1) (-1) (rngOfList [42]) (by norm_num)
     (by norm_num) (by norm_num)).2.2⟩

/-- C10.  Power is sampled after the core's tick: (1) the per-tick power
contribution of a core is `get_current_power_draw` of the post-tick core;
(2) on the tick where a bound finished task is detected, the binding is
cleared and the core contributes only the idle draw 0.1; (3) on a tick where
the core actively works its task, the post-tick task is the `work` result,
and if that `work` step fired an I/O event the core again contributes only
the idle draw 0.1, despite having computed this tick. -/
theorem power_sampled_after_core_tick :
    (∀ (c : CPUCore) (g : Rng),
      (tickCoresLoop [c] g).2.1 = ((c.tick g).1).get_current_power_draw) ∧
    (∀ (c : CPUCore) (g : Rng) (t : Task),
      c.idle_power_draw = 0.1 → c.current_task = some t → t.is_finished = true →
      ((c.tick g).1).current_task = none ∧
      ((c.tick g).1).get_current_power_draw = 0.1) ∧
    (∀ (c : CPUCore) (g : Rng) (t : Task),
      c.idle_power_draw = 0.1 → c.current_task = some t →
      t.is_finished = false → t.is_waiting_for_io = false →
      ((c.tick g).1).current_task =
        some ((t.work c.update_temperature.get_current_speed g).1) ∧
      (((t.work c.update_temperature.get_current_speed g).1).is_waiting_for_io = true →
        ((c.tick g).1).get_current_power_draw = 0.1)) := by
  refine ⟨?_, ?_, ?_⟩
  · intro c g
    rcases h : c.tick g with ⟨c', g'⟩
    simp [tickCoresLoop, h]
  · intro c g t hidle hsome hfin
    have hct : c.update_temperature.current_task = some t := by
      simp [CPUCore.update_temperature, hsome]
    unfold CPUCore.tick
    simp only [hct, hfin, if_true]
    exact ⟨by trivial, by simp [CPUCore.get_current_power_draw,
      CPUCore.update_temperature, hidle]⟩
  · intro c g t hidle hsome hfin hwait
    have hct : c.update_temperature.current_task = some t := by
      simp [CPUCore.update_temperature, hsome]
    unfold CPUCore.tick
    simp only [hct, hfin, hwait, Bool.false_eq_true, if_false]
    rcases hw : t.work c.update_temperature.get_current_speed g with ⟨t', g'⟩
    refine ⟨by trivial, ?_⟩
    intro hfire
    simp [CPUCore.get_current_power_draw, CPUCore.update_temperature,
      hidle, hfire]

/-- A finished CPU-bound task bound to a P-core, for the C10 witness. -/
def taskC10f : Task :=
  { id := 4, arrival_time := 0, type := .cpuBound, total_cycles := 200,
    io_frequency := 0, cycles_done := 200, io_wait_timer := 0 }

/-- A P-core bound to the finished task above. -/
def coreC10f : CPUCore :=
  { CPUCore.init 0 .pCore with current_task := some taskC10f }

/-- An unfinished, non-waiting I/O-bound task bound to an E-core, for the C10
witness; with the stream `[0, 0]` its `work` step fires an I/O event
(draw 1 < io_frequency 8). -/
def taskC10io : Task :=
  { id := 5, arrival_time := 0, type := .ioBound, total_cycles := 90,
    io_frequency := 8, cycles_done := 10, io_wait_timer := 0 }

/-- An E-core bound to the I/O-bound task above. -/
def coreC10io : CPUCore :=
  { CPUCore.init 1 .eCore with current_task := some taskC10io }

/-- Witness for C10 at concrete inputs: the finished-task core and the
I/O-event core each contribute exactly the idle 0.1 on their tick. -/
theorem power_sampled_after_core_tick_witness :
    coreC10f.idle_power_draw = 0.1 ∧
    coreC10f.current_task = some taskC10f ∧ taskC10f.is_finished = true ∧
    ((coreC10f.tick (rngOfList [])).1).get_current_power_draw = 0.1 ∧
    coreC10io.idle_power_draw = 0.1 ∧
    coreC10io.current_task = some taskC10io ∧
    taskC10io.is_finished = false ∧ taskC10io.is_waiting_for_io = false ∧
    ((taskC10io.work coreC10io.update_temperature.get_current_speed
        (rngOfList [0, 0])).1).is_waiting_for_io = true ∧
    ((coreC10io.tick (rngOfList [0, 0])).1).get_current_power_draw = 0.1 :=
  ⟨by with_unfolding_all decide, rfl, by with_unfolding_all decide,
   (power_sampled_after_core_tick.2.1 coreC10f (rngOfList []) taskC10f
     (by with_unfolding_all decide) rfl (by with_unfolding_all decide)).2,
   by with_unfolding_all decide, rfl,
   by with_unfolding_all decide, by with_unfolding_all decide,
   by with_unfolding_all decide,
   (power_sampled_after_core_tick.2.2 coreC10io (rngOfList [0, 0]) taskC10io
     (by with_unfolding_all decide) rfl (by with_unfolding_all decide)
     (by with_unfolding_all decide)).2 (by with_unfolding_all decide)⟩

end Janus
